import Mathlib

/-!
Verification of the k3s-Cassandra job-tracker services.

This file shallowly embeds the two Flask applications of the repository:
the backend (`src/backend-python/app.py`), whose `CassandraManager` wraps a
Cassandra cluster session, and the frontend (`src/frontend-python/app.py`),
which proxies to the backend over HTTP.

The Cassandra cluster is modelled as a `Store`: a `connected` flag (every
`session.execute` raises when it is false and succeeds when it is true),
the list of rows of the `jobs` table, and a counter supplying the fresh
ids that the CQL `uuid()` function generates on insert.  Python's
dynamically typed JSON dictionaries are modelled by the inductive `Jval`,
with Python truthiness (`if data:` / `if not data.get('title')`) made
explicit as `Jval.truthy`.  A Python operation that can raise is embedded
as an `Except String` value; a `try`/`except Exception` block becomes a
`match` on that `Except`.
-/

namespace K3sCassandra

/-- A JSON value as Flask's `request.get_json` / `jsonify` handle it:
strings, integers, booleans, null, arrays and objects. -/
inductive Jval where
  | s (v : String)
  | n (v : Int)
  | b (v : Bool)
  | null
  | arr (vs : List Jval)
  | obj (fields : List (String × Jval))

/-- Python truthiness of a JSON value: `""`, `0`, `False`, `None`, `[]`
and `{}` are falsy, everything else is truthy. -/
def Jval.truthy : Jval → Bool
  | .s v => v != ""
  | .n v => v != 0
  | .b v => v
  | .null => false
  | .arr vs => !vs.isEmpty
  | .obj fields => !fields.isEmpty

/-- A Python dict with string keys, as produced by `request.get_json()`
for a JSON object body. -/
abbrev Dict := List (String × Jval)

/-- Python `d.get(k)`: `some` of the first binding of `k`, else `none`. -/
def dget (d : Dict) (k : String) : Option Jval :=
  (d.find? (fun p => p.1 == k)).map (fun p => p.2)

/-- Python `d.get(k, v)`: the binding of `k` if the key is present
(even when its value is falsy), otherwise the default `v`. -/
def dgetD (d : Dict) (k : String) (v : Jval) : Jval :=
  (dget d k).getD v

/-- Truthiness of `d.get(k)`: a missing key gives Python `None`, falsy. -/
def truthyO : Option Jval → Bool
  | none => false
  | some v => v.truthy

/-- One row of the `jobs` table.  `id` abstracts the `uuid()` the store
generates at insert; the payload columns hold the values the adapter
passed through (Python sends them to the driver unconverted). -/
structure Job where
  id : Nat
  title : Jval
  description : Jval
  status : Jval
  assigned_to : Jval
  priority : Jval
  created_at : Option String
  updated_at : Option String

/-- The Cassandra cluster as the backend observes it: whether
`session.execute` currently succeeds, the rows of the `jobs` table, and
the counter from which `uuid()` draws the next fresh row id. -/
structure Store where
  connected : Bool
  jobs : List Job
  nextId : Nat

/-- Invariant linking ids to the freshness counter: every row id was
drawn from the counter, so all are below `nextId`. -/
def Store.idsFresh (s : Store) : Prop :=
  ∀ j ∈ s.jobs, j.id < s.nextId

/-- `session.execute("SELECT * FROM jobs LIMIT 5")`: at most 5 rows, in
storage order, no ordering clause; raises when disconnected. -/
def execSelectLimit5 (s : Store) : Except String (List Job) :=
  if s.connected then .ok (s.jobs.take 5) else .error "NoHostAvailable"

/-- `session.execute("SELECT * FROM jobs")`: the unbounded full scan. -/
def execSelectAll (s : Store) : Except String (List Job) :=
  if s.connected then .ok s.jobs else .error "NoHostAvailable"

/-- `session.execute("SELECT COUNT(*) FROM jobs")`. -/
def execCount (s : Store) : Except String Nat :=
  if s.connected then .ok s.jobs.length else .error "NoHostAvailable"

/-- The CQL `INSERT INTO jobs ... VALUES (uuid(), %s, %s, %s,
toTimestamp(now()), toTimestamp(now()), %s, %s)`: a fresh id from the
counter, both timestamps set to the insert time `now`, the five payload
values stored as given. -/
def execInsert (s : Store) (now : String)
    (title description status assigned_to priority : Jval) :
    Except String Store :=
  if s.connected then
    let row : Job :=
      { id := s.nextId, title := title, description := description,
        status := status, assigned_to := assigned_to, priority := priority,
        created_at := some now, updated_at := some now }
    .ok { s with jobs := s.jobs ++ [row], nextId := s.nextId + 1 }
  else .error "NoHostAvailable"

/-- The CQL DDL of `initialize_schema` (`CREATE KEYSPACE IF NOT EXISTS`,
`USE`, `CREATE TABLE IF NOT EXISTS`): idempotent, no effect on an
existing table's rows; raises when disconnected. -/
def execDDL (s : Store) : Except String Store :=
  if s.connected then .ok s else .error "NoHostAvailable"

/-- The dict `CassandraManager` builds from a row (`str(job.id)`,
payload columns verbatim, `isoformat()` of the timestamps or null). -/
def rowToDict (j : Job) : Dict :=
  [("id", .s (toString j.id)),
   ("title", j.title),
   ("description", j.description),
   ("status", j.status),
   ("priority", j.priority),
   ("assigned_to", j.assigned_to),
   ("created_at", match j.created_at with | some t => .s t | none => .null),
   ("updated_at", match j.updated_at with | some t => .s t | none => .null)]

/-- `CassandraManager.connect`: builds the cluster and session; any
exception is caught and reported as `False`.  `canReach` is whether the
cluster construction/connection raises. -/
def cm_connect (canReach : Bool) (s : Store) : Bool × Store :=
  if canReach then (true, { s with connected := true }) else (false, s)

/-- The five fixed sample jobs of `initialize_schema`, in source order:
`(title, description, status, priority)`; `assigned_to` is always
`'unassigned'`. -/
def sample_jobs : List (String × String × String × Int) :=
  [("Database Migration", "Migrate database to latest version", "pending", 1),
   ("API Development", "Develop REST API endpoints", "in_progress", 2),
   ("Testing Suite", "Create comprehensive test suite", "pending", 3),
   ("Documentation", "Write technical documentation", "pending", 4),
   ("Performance Optimization", "Optimize application performance", "pending", 5)]

/-- The seeding loop: insert each sample job in order, propagating the
first exception. -/
def seedAll : Store → String → List (String × String × String × Int) →
    Except String Store
  | s, _, [] => .ok s
  | s, now, (t, d, st, p) :: rest =>
    match execInsert s now (.s t) (.s d) (.s st) (.s "unassigned") (.n p) with
    | .ok s' => seedAll s' now rest
    | .error e => .error e

/-- The body of the `try` block of `initialize_schema`: DDL, then
`SELECT COUNT(*)`, then seeding only when the count is 0. -/
def initSchemaBody (s : Store) (now : String) : Except String Store :=
  match execDDL s with
  | .error e => .error e
  | .ok s1 =>
    match execCount s1 with
    | .error e => .error e
    | .ok cnt =>
      if cnt = 0 then seedAll s1 now sample_jobs else .ok s1

/-- `CassandraManager.initialize_schema`: runs the body, catching any
exception and reporting `False` (an exception can only arise before any
state change, with the store disconnected). -/
def cm_initSchema (s : Store) (now : String) : Bool × Store :=
  match initSchemaBody s now with
  | .ok s' => (true, s')
  | .error _ => (false, s)

/-- `CassandraManager.get_random_job`: `SELECT * FROM jobs LIMIT 5`, then
`if result:` — the first row's dict if the result set is nonempty,
`None` otherwise; any exception is caught and becomes `None`. -/
def cm_getRandomJob (s : Store) : Option Dict :=
  match execSelectLimit5 s with
  | .ok (r :: _) => some (rowToDict r)
  | .ok [] => none
  | .error _ => none

/-- `CassandraManager.get_all_jobs`: full scan mapped to dicts; any
exception is caught and becomes the empty list. -/
def cm_getAllJobs (s : Store) : List Dict :=
  match execSelectAll s with
  | .ok rows => rows.map rowToDict
  | .error _ => []

/-- `CassandraManager.create_job`: a single insert; `True` on success,
any exception caught and reported as `False` with the store unchanged. -/
def cm_createJob (s : Store) (now : String)
    (title description status assigned_to priority : Jval) : Bool × Store :=
  match execInsert s now title description status assigned_to priority with
  | .ok s' => (true, s')
  | .error _ => (false, s)

/-- An HTTP response of the backend: status code and top-level JSON
object body (every `jsonify` call in the backend receives a dict). -/
structure Response where
  status : Nat
  body : Dict

/-- Whether a response body carries the `pod` field. -/
def hasPod (r : Response) : Bool :=
  (dget r.body "pod").isSome

/-- The `try`/`except` of the backend `/` route, as a function of the
outcome of the `get_random_job()` call inside the `try`. -/
def rootHandler (probe : Except String (Option Dict)) (host ip : String) :
    Response :=
  match probe with
  | .ok (some job) =>
    { status := 200,
      body := [("job", .obj job), ("pod", .s host), ("pod_ip", .s ip),
        ("database", .s "Cassandra"),
        ("cluster_info", .obj [("connection_status", .s "connected"),
          ("language", .s "Python")])] }
  | .ok none =>
    { status := 200,
      body := [("job", .obj [("title", .s "No jobs found"),
          ("description", .s "Database is empty")]),
        ("pod", .s host), ("pod_ip", .s ip),
        ("database", .s "Cassandra"),
        ("cluster_info", .obj [("connection_status", .s "connected"),
          ("language", .s "Python")])] }
  | .error _ =>
    { status := 500,
      body := [("error", .s "Failed to fetch job from database"),
        ("pod", .s host), ("pod_ip", .s ip)] }

/-- Backend `GET /`: `cm_getRandomJob` catches every exception itself, so
the handler's own `except` branch never receives one. -/
def rootRoute (s : Store) (host ip : String) : Response :=
  rootHandler (.ok (cm_getRandomJob s)) host ip

/-- The `try`/`except` of the backend `GET /jobs` route, as a function
of the outcome of the `get_all_jobs()` call. -/
def jobsHandler (result : Except String (List Dict)) (host : String) :
    Response :=
  match result with
  | .ok jobs =>
    { status := 200,
      body := [("jobs", .arr (jobs.map Jval.obj)),
        ("total", .n (jobs.length : Int)),
        ("pod", .s host), ("language", .s "Python")] }
  | .error _ =>
    { status := 500, body := [("error", .s "Failed to fetch jobs")] }

/-- Backend `GET /jobs`: `cm_getAllJobs` never raises, so the `except`
branch never fires. -/
def jobsRoute (s : Store) (host : String) : Response :=
  jobsHandler (.ok (cm_getAllJobs s)) host

/-- The `try`/`except` of the backend `GET /health` route, as a function
of the outcome of the probing `get_random_job()` call. -/
def healthHandler (probe : Except String (Option Dict)) (host now : String) :
    Response :=
  match probe with
  | .ok job =>
    { status := 200,
      body := [("status", .s "healthy"), ("pod", .s host),
        ("timestamp", .s now),
        ("database", .s (if job.isSome then "connected" else "disconnected")),
        ("language", .s "Python"), ("version", .s "1.0.0")] }
  | .error e =>
    { status := 500,
      body := [("status", .s "unhealthy"), ("pod", .s host),
        ("timestamp", .s now), ("database", .s "disconnected"),
        ("language", .s "Python"), ("error", .s e)] }

/-- Backend `GET /health`: the probe `cm_getRandomJob` converts every
exception to `None` itself, so the handler always sees `.ok`. -/
def healthRoute (s : Store) (host now : String) : Response :=
  healthHandler (.ok (cm_getRandomJob s)) host now

/-- Backend `GET /info`: static metadata. -/
def infoRoute (host chost ks dc : String) : Response :=
  { status := 200,
    body := [("service", .s "Backend API"), ("language", .s "Python"),
      ("framework", .s "Flask"), ("database", .s "Cassandra"),
      ("version", .s "1.0.0"), ("pod", .s host),
      ("cassandra_host", .s chost), ("keyspace", .s ks),
      ("datacenter", .s dc)] }

/-- Result of the backend `POST /jobs` route: the response, the store
after the request, and whether `cassandra_manager.create_job` was
invoked. -/
structure CreateOut where
  resp : Response
  store : Store
  adapterCalled : Bool

/-- Backend `POST /jobs`.  `reqBody` is the outcome of
`request.get_json()`: `.error` when parsing raises (caught by the
handler's `except`, giving the 500), `.ok none` when there is no JSON
body, `.ok (some d)` for a JSON object body.  `not data or not
data.get('title') or not data.get('description')` is Python truthiness:
an absent body, empty dict, missing key, or falsy value all fail it. -/
def createRoute (reqBody : Except String (Option Dict)) (s : Store)
    (host now : String) : CreateOut :=
  let resp400 : Response :=
    { status := 400, body := [("error", .s "Title and description are required")] }
  let resp500 : Response :=
    { status := 500, body := [("error", .s "Failed to create job")] }
  match reqBody with
  | .error _ => { resp := resp500, store := s, adapterCalled := false }
  | .ok data =>
    let notData : Bool := match data with
      | none => true
      | some d => d.isEmpty
    if notData then
      { resp := resp400, store := s, adapterCalled := false }
    else
      let d := data.getD []
      if !truthyO (dget d "title") || !truthyO (dget d "description") then
        { resp := resp400, store := s, adapterCalled := false }
      else
        let title := (dget d "title").getD .null
        let description := (dget d "description").getD .null
        let status := dgetD d "status" (.s "pending")
        let assigned_to := dgetD d "assigned_to" (.s "unassigned")
        let priority := dgetD d "priority" (.n 1)
        match cm_createJob s now title description status assigned_to priority with
        | (true, s') =>
          let ok : Response :=
            { status := 200,
              body := [("message", .s "Job created successfully"),
                ("pod", .s host), ("language", .s "Python")] }
          { resp := ok, store := s', adapterCalled := true }
        | (false, s') =>
          { resp := resp500, store := s', adapterCalled := true }

/-- An HTTP response of the frontend: status code and JSON body.  The
body is a bare `Jval` because `/api/job` etc. forward whatever JSON
value the backend client handed back. -/
structure FResponse where
  status : Nat
  body : Jval

/-- `BackendService.get_random_job`: an outbound GET wrapped in
`try`/`except`.  `httpResult` is `none` when the request itself raises
(unreachable host, timeout), otherwise the status code and the outcome
of `response.json()` (`.error` for an unparseable body).
`raise_for_status()` raises for every status of 400 and above; every
caught exception becomes `None`. -/
def bs_getRandomJob (httpResult : Option (Nat × Except String Jval)) :
    Option Jval :=
  match httpResult with
  | none => none
  | some (st, body) =>
    if 400 ≤ st then none
    else
      match body with
      | .ok j => some j
      | .error _ => none

/-- Frontend `GET /api/job`: `if data:` forwards the client's JSON when
it is truthy, else the synthesized 500 error. -/
def api_getJob (clientResult : Option Jval) : FResponse :=
  if truthyO clientResult then
    { status := 200, body := clientResult.getD .null }
  else
    { status := 500,
      body := .obj [("error", .s "Failed to fetch job from backend")] }

/-- Frontend `POST /api/jobs`.  `reqBody` is the result of
`request.get_json()` (`none` for an absent body).  `clientResult` is
what `backend_service.create_job` would return if invoked.  The second
component records whether the Backend Client was invoked. -/
def api_createJob (reqBody : Option Jval) (clientResult : Option Jval) :
    FResponse × Bool :=
  if !truthyO reqBody then
    ({ status := 400, body := .obj [("error", .s "No job data provided")] },
     false)
  else
    if truthyO clientResult then
      ({ status := 200, body := clientResult.getD .null }, true)
    else
      ({ status := 500, body := .obj [("error", .s "Failed to create job")] },
       true)

/-- The 400 response of the backend `POST /jobs` validation, paired
with an unchanged store and the adapter not invoked (used to state
theorems about `createRoute`). -/
def badCreateOut (s : Store) : CreateOut :=
  let resp400 : Response :=
    { status := 400, body := [("error", .s "Title and description are required")] }
  { resp := resp400, store := s, adapterCalled := false }

/-! ## Theorems -/

/-- C6: `get_random_job` issues a bounded read of at most 5 rows with no
ordering clause (`SELECT * FROM jobs LIMIT 5`, i.e. the first 5 rows in
storage order) and returns the first row of that result, or none when
the table is empty; as a function of the store state it is
deterministic, not a uniform random choice. -/
theorem getRandomJob_bounded_first (s : Store) (hc : s.connected = true) :
    cm_getRandomJob s = ((s.jobs.take 5).head?).map rowToDict ∧
    (s.jobs.take 5).head? = s.jobs.head? ∧
    (cm_getRandomJob s = none ↔ s.jobs = []) := by
  unfold cm_getRandomJob execSelectLimit5
  rw [hc]
  cases s.jobs with
  | nil => simp
  | cons a l => simp

/-- Instance of `getRandomJob_bounded_first` at a concrete one-row
store. -/
theorem getRandomJob_bounded_first_witness :
    cm_getRandomJob { connected := true, jobs := [], nextId := 0 } =
      ((Store.jobs { connected := true, jobs := [], nextId := 0 }).take 5).head?.map rowToDict ∧
    ((Store.jobs { connected := true, jobs := [], nextId := 0 }).take 5).head? =
      (Store.jobs { connected := true, jobs := [], nextId := 0 }).head? ∧
    (cm_getRandomJob { connected := true, jobs := [], nextId := 0 } = none ↔
      Store.jobs { connected := true, jobs := [], nextId := 0 } = []) :=
  getRandomJob_bounded_first { connected := true, jobs := [], nextId := 0 } rfl

/-- C7: when the underlying client raises (disconnected store, or an
unreachable cluster for `connect`), every adapter operation catches the
error and returns its sentinel — `False` for connect, initialize_schema
and create_job, `None` for get_random_job, the empty list for
get_all_jobs — and leaves no other trace: no exception crosses the
adapter boundary (each embedded operation is a total function). -/
theorem adapter_error_sentinels (s : Store) (now : String)
    (t d st a p : Jval) (hdis : s.connected = false) :
    (cm_connect false s).1 = false ∧
    (cm_initSchema s now).1 = false ∧ (cm_initSchema s now).2 = s ∧
    cm_getRandomJob s = none ∧
    cm_getAllJobs s = [] ∧
    (cm_createJob s now t d st a p).1 = false ∧
    (cm_createJob s now t d st a p).2 = s := by
  unfold cm_connect cm_initSchema initSchemaBody execDDL cm_getRandomJob
    execSelectLimit5 cm_getAllJobs execSelectAll cm_createJob execInsert
  rw [hdis]
  simp

/-- Instance of `adapter_error_sentinels` at a concrete disconnected
store. -/
theorem adapter_error_sentinels_witness :
    (cm_connect false { connected := false, jobs := [], nextId := 0 }).1 = false ∧
    (cm_initSchema { connected := false, jobs := [], nextId := 0 } "t").1 = false ∧
    (cm_initSchema { connected := false, jobs := [], nextId := 0 } "t").2 =
      { connected := false, jobs := [], nextId := 0 } ∧
    cm_getRandomJob { connected := false, jobs := [], nextId := 0 } = none ∧
    cm_getAllJobs { connected := false, jobs := [], nextId := 0 } = [] ∧
    (cm_createJob { connected := false, jobs := [], nextId := 0 } "t"
      (.s "a") (.s "b") (.s "c") (.s "d") (.n 1)).1 = false ∧
    (cm_createJob { connected := false, jobs := [], nextId := 0 } "t"
      (.s "a") (.s "b") (.s "c") (.s "d") (.n 1)).2 =
      { connected := false, jobs := [], nextId := 0 } :=
  adapter_error_sentinels { connected := false, jobs := [], nextId := 0 } "t"
    (.s "a") (.s "b") (.s "c") (.s "d") (.n 1) rfl

/-- C2: running `initialize_schema` twice in sequence against the same
initially empty (and reachable) keyspace leaves exactly the 5 seed rows
in the jobs table, not 10: seeding runs only when the pre-check count
is 0, so the second run (count 5) changes nothing at all. -/
theorem initSchema_twice_five_rows (s : Store) (t1 t2 : String)
    (hc : s.connected = true) (he : s.jobs = []) :
    (cm_initSchema s t1).1 = true ∧
    ((cm_initSchema s t1).2).jobs.length = 5 ∧
    ((cm_initSchema s t1).2).jobs.map (fun j => j.title) =
      sample_jobs.map (fun q => Jval.s q.1) ∧
    (cm_initSchema ((cm_initSchema s t1).2) t2).2 = (cm_initSchema s t1).2 ∧
    ((cm_initSchema ((cm_initSchema s t1).2) t2).2).jobs.length = 5 := by
  obtain ⟨c, jobs, nid⟩ := s
  simp only at hc he
  subst hc he
  simp [cm_initSchema, initSchemaBody, execDDL, execCount, seedAll,
    sample_jobs, execInsert]

/-- Instance of `initSchema_twice_five_rows` at a concrete empty
store. -/
theorem initSchema_twice_five_rows_witness :
    (cm_initSchema { connected := true, jobs := [], nextId := 0 } "t").1 = true ∧
    ((cm_initSchema { connected := true, jobs := [], nextId := 0 } "t").2).jobs.length = 5 ∧
    ((cm_initSchema { connected := true, jobs := [], nextId := 0 } "t").2).jobs.map (fun j => j.title) =
      sample_jobs.map (fun q => Jval.s q.1) ∧
    (cm_initSchema ((cm_initSchema { connected := true, jobs := [], nextId := 0 } "t").2) "u").2 =
      (cm_initSchema { connected := true, jobs := [], nextId := 0 } "t").2 ∧
    ((cm_initSchema ((cm_initSchema { connected := true, jobs := [], nextId := 0 } "t").2) "u").2).jobs.length = 5 :=
  initSchema_twice_five_rows { connected := true, jobs := [], nextId := 0 }
    "t" "u" rfl rfl

/-- C3: a backend `POST /jobs` whose JSON body is absent, or lacks
`title`, or lacks `description`, or has an empty `title` or empty
`description`, gets HTTP 400 with the error message, and the adapter's
create operation is not invoked, so the store is unchanged. -/
theorem create_invalid_400 (body : Option Dict) (s : Store) (host now : String)
    (h : body = none ∨ ∃ d, body = some d ∧
      (dget d "title" = none ∨ dget d "title" = some (.s "") ∨
       dget d "description" = none ∨ dget d "description" = some (.s ""))) :
    createRoute (.ok body) s host now = badCreateOut s := by
  rcases h with h | ⟨d, hb, hd⟩
  · subst h
    rfl
  · subst hb
    unfold createRoute
    cases hemp : d.isEmpty with
    | true => simp [hemp, badCreateOut]
    | false =>
      rcases hd with h1 | h1 | h1 | h1 <;>
        simp [hemp, h1, truthyO, Jval.truthy, badCreateOut]

/-- Instance of `create_invalid_400` at an absent body and at a body
with an empty title. -/
theorem create_invalid_400_witness :
    createRoute (.ok none) { connected := true, jobs := [], nextId := 0 } "h" "t" =
      badCreateOut { connected := true, jobs := [], nextId := 0 } ∧
    createRoute (.ok (some [("title", .s ""), ("description", .s "x")]))
        { connected := true, jobs := [], nextId := 0 } "h" "t" =
      badCreateOut { connected := true, jobs := [], nextId := 0 } :=
  ⟨create_invalid_400 none { connected := true, jobs := [], nextId := 0 }
      "h" "t" (Or.inl rfl),
   create_invalid_400 (some [("title", .s ""), ("description", .s "x")])
      { connected := true, jobs := [], nextId := 0 } "h" "t"
      (Or.inr ⟨_, rfl, Or.inr (Or.inl rfl)⟩)⟩

/-- A concrete sample row, used to instantiate theorems at stores
holding at least one row. -/
def sampleRow : Job :=
  { id := 0, title := .s "T", description := .s "D",
    status := .s "pending", assigned_to := .s "unassigned",
    priority := .n 1, created_at := some "c", updated_at := some "c" }

/-- The row a valid `POST /jobs` carrying only `title` and
`description` creates: defaulted status, assignee and priority, a fresh
id from the store's counter (used to state theorems). -/
def defaultJobRow (s : Store) (t d now : String) : Job :=
  { id := s.nextId, title := .s t, description := .s d,
    status := .s "pending", assigned_to := .s "unassigned",
    priority := .n 1, created_at := some now, updated_at := some now }

/-- The row a `POST /jobs` carrying all five fields creates: the
caller-supplied values override the defaults (used to state
theorems). -/
def overrideJobRow (s : Store) (t d stv av : String) (pv : Int)
    (now : String) : Job :=
  { id := s.nextId, title := .s t, description := .s d,
    status := .s stv, assigned_to := .s av,
    priority := .n pv, created_at := some now, updated_at := some now }

/-- C4: for every valid pair (title, description), a backend
`POST /jobs` supplying only those fields succeeds and appends exactly
one row with that title and description, status `"pending"`, priority
1, `assigned_to` `"unassigned"`, and a freshly generated id distinct
from every existing row's; a following `GET /jobs` lists exactly the
store's rows, the new row among them; and caller-supplied `status`,
`assigned_to`, `priority` override the defaults. -/
theorem create_then_list (s : Store) (t d host now : String)
    (ht : t ≠ "") (hd : d ≠ "") (hc : s.connected = true)
    (hfresh : s.idsFresh) :
    (let out := createRoute
        (.ok (some [("title", Jval.s t), ("description", Jval.s d)])) s host now
     out.resp.status = 200 ∧
     out.store.jobs = s.jobs ++ [defaultJobRow s t d now] ∧
     (∀ j ∈ s.jobs, j.id ≠ (defaultJobRow s t d now).id) ∧
     dget (jobsRoute out.store host).body "jobs" =
       some (Jval.arr (out.store.jobs.map (fun j => Jval.obj (rowToDict j)))) ∧
     Jval.obj (rowToDict (defaultJobRow s t d now)) ∈
       out.store.jobs.map (fun j => Jval.obj (rowToDict j))) ∧
    (∀ (stv av : String) (pv : Int),
     (createRoute (.ok (some [("title", Jval.s t), ("description", Jval.s d),
        ("status", Jval.s stv), ("assigned_to", Jval.s av),
        ("priority", Jval.n pv)])) s host now).resp.status = 200 ∧
     (createRoute (.ok (some [("title", Jval.s t), ("description", Jval.s d),
        ("status", Jval.s stv), ("assigned_to", Jval.s av),
        ("priority", Jval.n pv)])) s host now).store.jobs =
       s.jobs ++ [overrideJobRow s t d stv av pv now]) := by
  have ht' : (t == "") = false := by
    simpa using ht
  have hd' : (d == "") = false := by
    simpa using hd
  constructor
  · refine ⟨?_, ?_, ?_, ?_, ?_⟩ <;>
      simp [createRoute, cm_createJob, execInsert, dget, dgetD, truthyO,
        Jval.truthy, hc, ht, hd, ht', hd', jobsRoute, jobsHandler,
        cm_getAllJobs, execSelectAll, defaultJobRow, List.find?]
    · exact fun j hj => Nat.ne_of_lt (hfresh j hj)
  · intro stv av pv
    constructor <;>
      simp [createRoute, cm_createJob, execInsert, dget, dgetD, truthyO,
        Jval.truthy, hc, ht, hd, ht', hd', overrideJobRow, List.find?]

/-- Instance of `create_then_list` at a concrete empty store, for the
defaults case and the override case. -/
theorem create_then_list_witness :
    (createRoute (.ok (some [("title", Jval.s "A"), ("description", Jval.s "B")]))
        { connected := true, jobs := [], nextId := 7 } "h" "t").resp.status = 200 ∧
    (createRoute (.ok (some [("title", Jval.s "A"), ("description", Jval.s "B")]))
        { connected := true, jobs := [], nextId := 7 } "h" "t").store.jobs =
      [] ++ [defaultJobRow { connected := true, jobs := [], nextId := 7 } "A" "B" "t"] ∧
    (createRoute (.ok (some [("title", Jval.s "A"), ("description", Jval.s "B"),
        ("status", Jval.s "done"), ("assigned_to", Jval.s "me"),
        ("priority", Jval.n 9)]))
        { connected := true, jobs := [], nextId := 7 } "h" "t").store.jobs =
      [] ++ [overrideJobRow { connected := true, jobs := [], nextId := 7 } "A" "B" "done" "me" 9 "t"] := by
  have h := create_then_list { connected := true, jobs := [], nextId := 7 }
    "A" "B" "h" "t" (by decide) (by decide) rfl (by intro j hj; simp at hj)
  exact ⟨h.1.1, h.1.2.1, (h.2 "done" "me" 9).2⟩

/-- C5 counterexample: the 400 response of backend `POST /jobs` with an
absent JSON body is a JSON object with no `pod` field, so not every
backend response carries one. -/
theorem pod_field_claim_cex :
    (createRoute (.ok none) { connected := true, jobs := [], nextId := 0 }
      "h" "t").resp.status = 400 ∧
    dget ((createRoute (.ok none) { connected := true, jobs := [], nextId := 0 }
      "h" "t").resp.body) "pod" = none := by
  exact ⟨rfl, rfl⟩

/-- C5 amended: every response of the backend's GET routes (`/`,
`/jobs`, `/health`, `/info`) carries a `pod` field, and so does the 200
response of `POST /jobs`; but the 400 and 500 error responses of
`POST /jobs` carry no `pod` field at all. -/
theorem pod_field_amended (s : Store) (reqBody : Except String (Option Dict))
    (host ip chost ks dc now : String) :
    hasPod (rootRoute s host ip) = true ∧
    hasPod (jobsRoute s host) = true ∧
    hasPod (healthRoute s host now) = true ∧
    hasPod (infoRoute host chost ks dc) = true ∧
    ((createRoute reqBody s host now).resp.status = 200 →
      hasPod (createRoute reqBody s host now).resp = true) ∧
    ((createRoute reqBody s host now).resp.status ≠ 200 →
      dget (createRoute reqBody s host now).resp.body "pod" = none) := by
  refine ⟨?_, ?_, ?_, ?_, ?_, ?_⟩
  · cases h : cm_getRandomJob s <;>
      simp [rootRoute, rootHandler, h, hasPod, dget, List.find?]
  · simp [jobsRoute, jobsHandler, hasPod, dget, List.find?]
  · simp [healthRoute, healthHandler, hasPod, dget, List.find?]
  · simp [infoRoute, hasPod, dget, List.find?]
  all_goals
    unfold createRoute
    rcases reqBody with e | data
    · simp [dget]
    · rcases data with _ | d
      · simp [dget]
      · simp only []
        split
        · simp [dget]
        · split
          · simp [dget]
          · split <;> simp [hasPod, dget, List.find?]

/-- Instance of `pod_field_amended` at a concrete store, the inner
hypotheses discharged at a valid body (200) and an absent body (400). -/
theorem pod_field_amended_witness :
    hasPod (rootRoute { connected := true, jobs := [], nextId := 0 } "h" "i") = true ∧
    hasPod (jobsRoute { connected := true, jobs := [], nextId := 0 } "h") = true ∧
    hasPod (healthRoute { connected := true, jobs := [], nextId := 0 } "h" "t") = true ∧
    hasPod (infoRoute "h" "c" "k" "d") = true ∧
    hasPod (createRoute (.ok (some [("title", Jval.s "A"), ("description", Jval.s "B")]))
      { connected := true, jobs := [], nextId := 0 } "h" "t").resp = true ∧
    dget ((createRoute (.ok none) { connected := true, jobs := [], nextId := 0 }
      "h" "t").resp.body) "pod" = none := by
  have h1 := pod_field_amended { connected := true, jobs := [], nextId := 0 }
    (.ok (some [("title", Jval.s "A"), ("description", Jval.s "B")]))
    "h" "i" "c" "k" "d" "t"
  have h2 := pod_field_amended { connected := true, jobs := [], nextId := 0 }
    (.ok none) "h" "i" "c" "k" "d" "t"
  exact ⟨h1.1, h1.2.1, h1.2.2.1, h1.2.2.2.1, h1.2.2.2.2.1 rfl,
    h2.2.2.2.2.2 (by decide)⟩

/-- C1 counterexample: on an empty but reachable store the probe
returns an explicit `None` without exception, yet the health body's
`database` field is `"disconnected"`, not `"connected"`; and with the
store connection torn down the response is HTTP 200 with status
`"healthy"`, not HTTP 500 with `"unhealthy"`. -/
theorem health_claim_cex :
    (cm_getRandomJob { connected := true, jobs := [], nextId := 0 } = none ∧
     dget (healthRoute { connected := true, jobs := [], nextId := 0 } "h" "t").body
       "database" = some (Jval.s "disconnected") ∧
     dget (healthRoute { connected := true, jobs := [], nextId := 0 } "h" "t").body
       "database" ≠ some (Jval.s "connected")) ∧
    ((healthRoute { connected := false, jobs := [], nextId := 0 } "h" "t").status = 200 ∧
     (healthRoute { connected := false, jobs := [], nextId := 0 } "h" "t").status ≠ 500 ∧
     dget (healthRoute { connected := false, jobs := [], nextId := 0 } "h" "t").body
       "status" = some (Jval.s "healthy")) := by
  refine ⟨⟨rfl, rfl, ?_⟩, rfl, by decide, rfl⟩
  intro h
  simp [healthRoute, healthHandler, cm_getRandomJob, execSelectLimit5,
    dget, List.find?] at h

/-- C1 amended: if the store has at least one reachable row, `/health`
answers 200 with status `"healthy"` and database `"connected"`; if the
probe returns an explicit `None` without exception — including when the
store connection is torn down, since the adapter converts the exception
to `None` — the response is still HTTP 200 with status `"healthy"`, but
with database `"disconnected"`, never HTTP 500 `"unhealthy"`. -/
theorem health_route_amended (s : Store) (host now : String) :
    (s.connected = true → s.jobs ≠ [] →
      (healthRoute s host now).status = 200 ∧
      dget (healthRoute s host now).body "status" = some (Jval.s "healthy") ∧
      dget (healthRoute s host now).body "database" = some (Jval.s "connected")) ∧
    (cm_getRandomJob s = none →
      (healthRoute s host now).status = 200 ∧
      dget (healthRoute s host now).body "status" = some (Jval.s "healthy") ∧
      dget (healthRoute s host now).body "database" = some (Jval.s "disconnected")) := by
  constructor
  · intro hc hne
    have hsome : (cm_getRandomJob s).isSome = true := by
      obtain ⟨a, l, hj⟩ := List.exists_cons_of_ne_nil hne
      unfold cm_getRandomJob execSelectLimit5
      rw [hc, hj]
      simp
    rcases Option.isSome_iff_exists.mp hsome with ⟨j, hj⟩
    simp [healthRoute, healthHandler, hj, dget, List.find?]
  · intro hnone
    simp [healthRoute, healthHandler, hnone, dget, List.find?]

/-- Instance of `health_route_amended`: a reachable one-row store gets
`"connected"`, a torn-down store gets 200/`"healthy"`/`"disconnected"`. -/
theorem health_route_amended_witness :
    ((healthRoute { connected := true, jobs := [sampleRow], nextId := 1 }
        "h" "t").status = 200 ∧
     dget (healthRoute { connected := true, jobs := [sampleRow], nextId := 1 }
        "h" "t").body "status" = some (Jval.s "healthy") ∧
     dget (healthRoute { connected := true, jobs := [sampleRow], nextId := 1 }
        "h" "t").body "database" = some (Jval.s "connected")) ∧
    ((healthRoute { connected := false, jobs := [], nextId := 0 } "h" "t").status = 200 ∧
     dget (healthRoute { connected := false, jobs := [], nextId := 0 } "h" "t").body
       "status" = some (Jval.s "healthy") ∧
     dget (healthRoute { connected := false, jobs := [], nextId := 0 } "h" "t").body
       "database" = some (Jval.s "disconnected")) :=
  ⟨(health_route_amended { connected := true, jobs := [sampleRow], nextId := 1 }
      "h" "t").1 rfl (by simp),
   (health_route_amended { connected := false, jobs := [], nextId := 0 }
      "h" "t").2 rfl⟩

/-- C10: the HTTP-500 "unhealthy" branch of `/health` is unreachable
through the store probe: `get_random_job` catches every exception and
returns `None`, so the health check always answers HTTP 200 with status
`"healthy"` whatever the store state, with `database` set to
`"disconnected"` whenever the probe returns `None`. -/
theorem health_always_healthy (s : Store) (host now : String) :
    (healthRoute s host now).status = 200 ∧
    dget (healthRoute s host now).body "status" = some (Jval.s "healthy") ∧
    (cm_getRandomJob s = none →
      dget (healthRoute s host now).body "database" = some (Jval.s "disconnected")) := by
  refine ⟨rfl, rfl, ?_⟩
  intro hnone
  simp [healthRoute, healthHandler, hnone, dget, List.find?]

/-- Instance of `health_always_healthy` at a disconnected store, the
inner hypothesis discharged there. -/
theorem health_always_healthy_witness :
    (healthRoute { connected := false, jobs := [], nextId := 0 } "h" "t").status = 200 ∧
    dget (healthRoute { connected := false, jobs := [], nextId := 0 } "h" "t").body
      "status" = some (Jval.s "healthy") ∧
    (cm_getRandomJob { connected := false, jobs := [], nextId := 0 } = none →
      dget (healthRoute { connected := false, jobs := [], nextId := 0 } "h" "t").body
        "database" = some (Jval.s "disconnected")) :=
  health_always_healthy { connected := false, jobs := [], nextId := 0 } "h" "t"

/-- C8 counterexample: the backend call succeeds — reachable, HTTP 200,
parseable JSON `{}` — and the Backend Client returns that value (not
`None`), yet the frontend answers HTTP 500 with the synthesized error
body instead of forwarding the JSON verbatim: `if data:` rejects every
falsy JSON value. -/
theorem api_job_claim_cex :
    bs_getRandomJob (some (200, Except.ok (Jval.obj []))) = some (Jval.obj []) ∧
    (api_getJob (bs_getRandomJob (some (200, Except.ok (Jval.obj []))))).status = 500 ∧
    (api_getJob (bs_getRandomJob (some (200, Except.ok (Jval.obj []))))).body ≠
      Jval.obj [] := by
  refine ⟨rfl, rfl, ?_⟩
  intro h
  simp [api_getJob, bs_getRandomJob, truthyO, Jval.truthy] at h

/-- C8 amended: frontend `GET /api/job` forwards the Backend Client's
JSON verbatim as HTTP 200 whenever that JSON is truthy; when the client
returns `None` (unreachable backend, status ≥ 400, or malformed JSON)
or a falsy JSON value (such as an empty object), it answers HTTP 500
with body `{"error": "Failed to fetch job from backend"}`. -/
theorem api_job_amended (r : Option (Nat × Except String Jval)) :
    (∀ j, bs_getRandomJob r = some j → j.truthy = true →
      api_getJob (bs_getRandomJob r) = { status := 200, body := j }) ∧
    (∀ j, bs_getRandomJob r = some j → j.truthy = false →
      (api_getJob (bs_getRandomJob r)).status = 500 ∧
      (api_getJob (bs_getRandomJob r)).body =
        Jval.obj [("error", Jval.s "Failed to fetch job from backend")]) ∧
    (bs_getRandomJob r = none →
      (api_getJob (bs_getRandomJob r)).status = 500 ∧
      (api_getJob (bs_getRandomJob r)).body =
        Jval.obj [("error", Jval.s "Failed to fetch job from backend")]) := by
  refine ⟨?_, ?_, ?_⟩
  · intro j hj htr
    simp [api_getJob, hj, truthyO, htr]
  · intro j hj htr
    simp [api_getJob, hj, truthyO, htr]
  · intro hn
    simp [api_getJob, hn, truthyO]

/-- Instance of `api_job_amended`: a truthy backend JSON is forwarded
verbatim, an unreachable backend yields the 500 error body. -/
theorem api_job_amended_witness :
    api_getJob (bs_getRandomJob (some (200, Except.ok (Jval.obj [("a", Jval.n 1)])))) =
      { status := 200, body := Jval.obj [("a", Jval.n 1)] } ∧
    (api_getJob (bs_getRandomJob none)).status = 500 ∧
    (api_getJob (bs_getRandomJob none)).body =
      Jval.obj [("error", Jval.s "Failed to fetch job from backend")] :=
  ⟨(api_job_amended (some (200, Except.ok (Jval.obj [("a", Jval.n 1)])))).1
      (Jval.obj [("a", Jval.n 1)]) rfl rfl,
   (api_job_amended none).2.2 rfl⟩

/-- C9: a frontend `POST /api/jobs` whose JSON body is absent or parses
to a falsy value (such as an empty object) gets HTTP 400 with body
`{"error": "No job data provided"}` and the Backend Client is never
invoked, whatever it would have returned. -/
theorem api_create_invalid_400 (reqBody clientResult : Option Jval)
    (h : reqBody = none ∨ ∃ j, reqBody = some j ∧ j.truthy = false) :
    api_createJob reqBody clientResult =
      ({ status := 400, body := Jval.obj [("error", Jval.s "No job data provided")] },
       false) := by
  rcases h with h | ⟨j, hb, hf⟩
  · subst h
    rfl
  · subst hb
    simp [api_createJob, truthyO, hf]

/-- Instance of `api_create_invalid_400` at an absent body and at an
empty-object body. -/
theorem api_create_invalid_400_witness :
    api_createJob none (some (Jval.obj [("a", Jval.n 1)])) =
      ({ status := 400, body := Jval.obj [("error", Jval.s "No job data provided")] },
       false) ∧
    api_createJob (some (Jval.obj [])) (some (Jval.obj [("a", Jval.n 1)])) =
      ({ status := 400, body := Jval.obj [("error", Jval.s "No job data provided")] },
       false) :=
  ⟨api_create_invalid_400 none (some (Jval.obj [("a", Jval.n 1)])) (Or.inl rfl),
   api_create_invalid_400 (some (Jval.obj [])) (some (Jval.obj [("a", Jval.n 1)]))
     (Or.inr ⟨Jval.obj [], rfl, rfl⟩)⟩

end K3sCassandra
